import Mathlib

set_option autoImplicit false

/-!
Verification of the homework-status poller (`homework.py`).

The script is embedded shallowly: Python values are modelled by `PyVal`,
Python exceptions by `Exc`, and the observable effects of a run (network
calls, log lines, sleeps) by traces of `Action`.  Functions that raise
return `Except Exc _`; the poll loop of `main` becomes a pure step
function `iteration` from a `PollState` and the environment's behaviour
in that iteration (the API result and the delivery outcome of each
Telegram send) to the next state plus the trace of effects.
-/

namespace HomeworkBot

/-- Python exception values raised or caught by the program.
`apiRequestError` and `invalidResponseError` are the two classes defined
in the script; `keyError` / `valueError` are the builtins it raises in
`parse_status`; `apiTelegramException` is the class caught in
`send_message`; `requestException` stands for any other exception the
messaging collaborator may raise (e.g. a transport failure). -/
inductive Exc
  | apiRequestError (msg : String)
  | invalidResponseError (msg : String)
  | keyError (msg : String)
  | valueError (msg : String)
  | apiTelegramException (msg : String)
  | requestException (msg : String)
  | attributeError (msg : String)
  deriving DecidableEq

/-- Python `str(error)`.  `str` of a `KeyError` wraps the message in
repr quotes; every other class here prints its message unchanged. -/
def excStr : Exc → String
  | .keyError m => "\x27" ++ m ++ "\x27"
  | .apiRequestError m => m
  | .invalidResponseError m => m
  | .valueError m => m
  | .apiTelegramException m => m
  | .requestException m => m
  | .attributeError m => m

/-- Python values as they occur in this program: JSON scalars, lists and
string-keyed dicts (a dict is an association list, first binding wins). -/
inductive PyVal
  | int (n : Int)
  | str (s : String)
  | bool (b : Bool)
  | none
  | list (xs : List PyVal)
  | dict (entries : List (String × PyVal))

/-- Short Python type name, as in `type(v).__name__`. -/
def pyTypeShort : PyVal → String
  | .int _ => "int"
  | .str _ => "str"
  | .bool _ => "bool"
  | .none => "NoneType"
  | .list _ => "list"
  | .dict _ => "dict"

/-- Rendering of `type(v)` inside an f-string: `<class 'int'>` etc. -/
def typeName (v : PyVal) : String :=
  "<class \x27" ++ pyTypeShort v ++ "\x27>"

mutual

/-- Python `repr` of a value (used by `str` on containers). -/
def pyrepr : PyVal → String
  | .int n => toString n
  | .str s => "\x27" ++ s ++ "\x27"
  | .bool b => if b then "True" else "False"
  | .none => "None"
  | .list xs => "[" ++ pyreprList xs ++ "]"
  | .dict es => "\x7b" ++ pyreprDict es ++ "\x7d"

/-- `repr` of the elements of a list, comma separated. -/
def pyreprList : List PyVal → String
  | [] => ""
  | [x] => pyrepr x
  | x :: y :: xs => pyrepr x ++ ", " ++ pyreprList (y :: xs)

/-- `repr` of the entries of a dict, comma separated. -/
def pyreprDict : List (String × PyVal) → String
  | [] => ""
  | [(k, v)] => "\x27" ++ k ++ "\x27: " ++ pyrepr v
  | (k, v) :: e :: es => "\x27" ++ k ++ "\x27: " ++ pyrepr v ++ ", " ++ pyreprDict (e :: es)

end

/-- Python `str(v)`, as applied by an f-string: strings print unquoted,
everything else as its repr. -/
def pystr : PyVal → String
  | .str s => s
  | v => pyrepr v

/-- `d.get(key)` / `d[key]` lookup on dict entries (first binding wins). -/
def dictGet (entries : List (String × PyVal)) (key : String) : Option PyVal :=
  (entries.find? (fun p => p.1 == key)).map Prod.snd

/-- `response.get(key, default)`-style lookup on a `PyVal` that is a dict;
on a non-dict this is unreachable in the program (it would raise). -/
def pyGet : PyVal → String → Option PyVal
  | .dict es, key => dictGet es key
  | _, _ => Option.none

/-- The fixed inter-iteration delay, `RETRY_PERIOD = 600`. -/
def RETRY_PERIOD : Nat := 600

/-- The static verdict table `HOMEWORK_VERDICTS`. -/
def HOMEWORK_VERDICTS : List (String × String) :=
  [("approved", "Работа проверена: ревьюеру всё понравилось. Ура!"),
   ("reviewing", "Работа взята на проверку ревьюером."),
   ("rejected", "Работа проверена: у ревьюера есть замечания.")]

/-- Lookup in a string-to-string table (Python dict membership / index). -/
def tableLookup (table : List (String × String)) (key : String) : Option String :=
  (table.find? (fun p => p.1 == key)).map Prod.snd

/-- Observable effects of a run: outbound network calls, log lines at
each severity, and sleeps. -/
inductive Action
  | apiCall
  | sendAttempt (message : String)
  | logDebug (message : String)
  | logInfo (message : String)
  | logError (message : String)
  | logCritical (message : String)
  | sleep (seconds : Nat)
  deriving DecidableEq

/-- An action that is an outbound network call (API poll or Telegram send). -/
def isNetworkCall : Action → Bool
  | .apiCall => true
  | .sendAttempt _ => true
  | _ => false

/-- Number of Telegram send attempts in a trace. -/
def sendAttempts (acts : List Action) : Nat :=
  (acts.filter (fun a => match a with | .sendAttempt _ => true | _ => false)).length

/-- Python truthiness of an environment variable: `not value` is true
exactly when the variable is unset or the empty string. -/
def truthy : Option String → Bool
  | Option.none => false
  | some s => !(s == "")

/-- The `missing_tokens` list computed inside `check_tokens`: names of
credentials that are unset or empty, in declaration order. -/
def missingTokenNames (p t c : Option String) : List String :=
  (([("PRACTICUM_TOKEN", p), ("TELEGRAM_TOKEN", t),
     ("TELEGRAM_CHAT_ID", c)]).filter (fun x => !(truthy x.2))).map Prod.fst

/-- `check_tokens()`: logs one critical line enumerating the missing
credentials (joined by a comma) and returns false when any is missing;
returns true with no output otherwise. -/
def check_tokens (p t c : Option String) : List Action × Bool :=
  match missingTokenNames p t c with
  | [] => ([], true)
  | k :: ks =>
      ([.logCritical ("Отсутствуют переменные окружения: " ++
          String.intercalate "," (k :: ks))], false)

/-- `send_message(bot, message)`.  The collaborator's behaviour is the
`collab` argument: `.ok ()` means Telegram accepted the message; an
`apiTelegramException` is caught, logged at error level and turned into
`false`; any other exception (e.g. a transport failure) is not caught by
the `except ApiTelegramException` clause and propagates. -/
def send_message (collab : Except Exc Unit) (message : String) :
    List Action × Except Exc Bool :=
  match collab with
  | .ok _ =>
      ([.sendAttempt message, .logDebug ("Сообщение отправлено: " ++ message)],
       .ok true)
  | .error (.apiTelegramException m) =>
      ([.sendAttempt message, .logError ("Ошибка отправки сообщения: " ++ m)],
       .ok false)
  | .error e => ([.sendAttempt message], .error e)

/-- The required response keys of `check_response`. -/
def requiredResponseKeys : List String := ["homeworks", "current_date"]

/-- The `missing_keys` computed inside `check_response`: required keys
absent from the response dict. -/
def missingRespKeys (es : List (String × PyVal)) : List String :=
  requiredResponseKeys.filter (fun k => (dictGet es k).isNone)

/-- `check_response(response)`: rejects non-dicts (naming the observed
type), dicts missing a required key (naming the missing keys), and a
non-list `homeworks` value (naming its type); otherwise returns the
`homeworks` list unchanged.  Pure: no effects. -/
def check_response (response : PyVal) : Except Exc (List PyVal) :=
  match response with
  | .dict es =>
    match missingRespKeys es with
    | k :: ks =>
        .error (.invalidResponseError ("Отсутствуют ключи в ответе API: " ++
          String.intercalate ", " (k :: ks)))
    | [] =>
      match dictGet es "homeworks" with
      | Option.none => .error (.keyError "homeworks")
      | some homeworks =>
        match homeworks with
        | .list hws => .ok hws
        | v => .error (.invalidResponseError
            ("homeworks должен быть списком, получен " ++ typeName v))
  | v => .error (.invalidResponseError
      ("Ответ API должен быть словарем, получен " ++ typeName v))

/-- The required homework keys of `parse_status`. -/
def requiredHomeworkKeys : List String := ["homework_name", "status"]

/-- The `missing_keys` computed inside `parse_status`. -/
def missingHwKeys (es : List (String × PyVal)) : List String :=
  requiredHomeworkKeys.filter (fun k => (dictGet es k).isNone)

/-- `parse_status` with the verdict table as an explicit parameter (in
the script `HOMEWORK_VERDICTS` is a module-level constant).  Raises
`KeyError` naming the missing required keys, `ValueError` for a status
outside the table, and otherwise builds the notification sentence. -/
def parse_status_with (verdicts : List (String × String)) (homework : PyVal) :
    Except Exc String :=
  match homework with
  | .dict es =>
    match missingHwKeys es with
    | k :: ks =>
        .error (.keyError ("Отсутствуют ключи в домашней работе: " ++
          String.intercalate ", " (k :: ks)))
    | [] =>
      match dictGet es "status" with
      | Option.none => .error (.keyError "status")
      | some status =>
        match status with
        | .str s =>
          match tableLookup verdicts s with
          | some verdict =>
            match dictGet es "homework_name" with
            | Option.none => .error (.keyError "homework_name")
            | some name =>
                .ok ("Изменился статус проверки работы \"" ++ pystr name ++
                  "\". " ++ verdict)
          | Option.none => .error (.valueError ("Неизвестный статус: " ++ s))
        | v => .error (.valueError ("Неизвестный статус: " ++ pystr v))
  | v => .error (.attributeError
      ("\x27" ++ pyTypeShort v ++ "\x27 object has no attribute \x27keys\x27"))

/-- `parse_status(homework)` as in the script, over `HOMEWORK_VERDICTS`. -/
def parse_status (homework : PyVal) : Except Exc String :=
  parse_status_with HOMEWORK_VERDICTS homework

/-- The loop's mutable state in `main`: the cursor `timestamp` (a
`PyVal`, since `response.get('current_date', timestamp)` stores whatever
value the response carries) and `last_error` (the `str(error)` of the
most recently *successfully notified* error, or none). -/
structure PollState where
  timestamp : PyVal
  last_error : Option String

/-- Result of one pass through the `while True` body: the state for the
next iteration, the trace of effects, and the exception, if any, that
escaped the `except Exception` handler (only a raise inside the handler
itself can do that; the `finally` sleep still runs first). -/
structure IterOut where
  state : PollState
  actions : List Action
  uncaught : Option Exc

/-- The `finally` clause: every exit from the iteration body appends the
unconditional `time.sleep(RETRY_PERIOD)`. -/
def finish (st : PollState) (acts : List Action) (unc : Option Exc) : IterOut :=
  ⟨st, acts ++ [.sleep RETRY_PERIOD], unc⟩

/-- The `except Exception as error` handler of `main`.  `sends k` is the
collaborator's behaviour for the `k`-th `send_message` call of this
iteration.  Logs the failure; if `str(error)` differs from `last_error`,
attempts to notify and records the text only when `send_message` returns
true; otherwise only a debug line.  A non-`ApiTelegramException` raise
from `send_message` escapes the handler. -/
def exceptPart (st : PollState) (e : Exc) (acts : List Action)
    (sends : Nat → Except Exc Unit) (k : Nat) : IterOut :=
  if st.last_error = some (excStr e) then
    finish st (acts ++ [.logError ("Сбой в работе программы: " ++ excStr e),
      .logDebug ("Повторная ошибка: " ++ excStr e)]) Option.none
  else
    match send_message (sends k) ("Сбой в работе программы: " ++ excStr e) with
    | (sacts, .ok true) =>
        finish ⟨st.timestamp, some (excStr e)⟩
          (acts ++ [.logError ("Сбой в работе программы: " ++ excStr e)] ++ sacts)
          Option.none
    | (sacts, .ok false) =>
        finish st
          (acts ++ [.logError ("Сбой в работе программы: " ++ excStr e)] ++ sacts)
          Option.none
    | (sacts, .error e2) =>
        finish st
          (acts ++ [.logError ("Сбой в работе программы: " ++ excStr e)] ++ sacts)
          (some e2)

/-- Continuation of the `try` block after `send_message(bot, message)`
returned (or raised): on `True` the info line is logged, on a raise the
handler takes over with the raised exception (a second `send_message`
call inside the handler uses outcome index 1); in the two non-raising
cases execution reaches the cursor assignment
`timestamp = response.get('current_date', timestamp)`. -/
def afterSend (st : PollState) (response : PyVal) (message : String)
    (sends : Nat → Except Exc Unit) : List Action × Except Exc Bool → IterOut
  | (sacts, .error e) => exceptPart st e ([.apiCall] ++ sacts) sends 1
  | (sacts, .ok true) =>
      finish ⟨(pyGet response "current_date").getD st.timestamp, st.last_error⟩
        ([.apiCall] ++ sacts ++ [.logInfo ("Статус обновлен: " ++ message)])
        Option.none
  | (sacts, .ok false) =>
      finish ⟨(pyGet response "current_date").getD st.timestamp, st.last_error⟩
        ([.apiCall] ++ sacts) Option.none

/-- Continuation of the `try` block after `parse_status(homeworks[0])`:
a raise jumps to the handler; a message is sent via `send_message`. -/
def afterParse (st : PollState) (response : PyVal)
    (sends : Nat → Except Exc Unit) : Except Exc String → IterOut
  | .error e => exceptPart st e [.apiCall] sends 0
  | .ok message => afterSend st response message sends (send_message (sends 0) message)

/-- Continuation of the `try` block after `check_response(response)`:
a raise jumps to the handler; an empty list only logs a debug line and
advances the cursor; otherwise the first record is formatted. -/
def afterValidate (st : PollState) (response : PyVal)
    (sends : Nat → Except Exc Unit) : Except Exc (List PyVal) → IterOut
  | .error e => exceptPart st e [.apiCall] sends 0
  | .ok [] =>
      finish ⟨(pyGet response "current_date").getD st.timestamp, st.last_error⟩
        [.apiCall, .logDebug "Нет новых статусов"] Option.none
  | .ok (hw :: _) => afterParse st response sends (parse_status hw)

/-- One pass through the body of `while True` in `main`.  `api` is the
outcome of `get_api_answer(timestamp)` (the parsed response, or the
exception it raised); `sends k` is the collaborator's behaviour for the
`k`-th `send_message` call of the iteration.  Mirrors the source: fetch,
validate, format and notify the first homework (or a debug line when the
list is empty), then advance the cursor to `current_date` if present;
any exception raised before the cursor assignment jumps to the handler,
and the `finally` sleep always runs. -/
def iteration (st : PollState) (api : Except Exc PyVal)
    (sends : Nat → Except Exc Unit) : IterOut :=
  match api with
  | .error e => exceptPart st e [.apiCall] sends 0
  | .ok response => afterValidate st response sends (check_response response)

/-- The environment's behaviour in one iteration: the API-call outcome
and the delivery outcome of each potential Telegram send. -/
structure IterEnv where
  api : Except Exc PyVal
  sends : Nat → Except Exc Unit

/-- Run the loop over a finite prefix of environment behaviours.  The
loop stops early only if an exception escapes an iteration's handler
(the `while True` then terminates by propagation). -/
def runLoop (st : PollState) (envs : List IterEnv) : List IterOut :=
  match envs with
  | [] => []
  | env :: rest =>
    let o := iteration st env.api env.sends
    if o.uncaught = Option.none then o :: runLoop o.state rest else [o]

/-- Outcome of `main`'s startup phase. -/
inductive StartResult
  | exited (code : Nat) (acts : List Action)
  | loopEntered (acts : List Action) (st : PollState)

/-- Startup of `main()`: `check_tokens` is consulted before anything
else; on failure the process exits with status 1 after the single
critical log line, before the bot is constructed and before the loop;
on success the loop starts with `timestamp = int(time.time())` and no
previously reported error. -/
def mainStartup (p t c : Option String) (now : Int) : StartResult :=
  match check_tokens p t c with
  | (acts, true) => .loopEntered acts ⟨.int now, Option.none⟩
  | (acts, false) => .exited 1 acts

/-- A collaborator behaviour that `send_message` does not re-raise:
either delivery succeeds or the raise is an `ApiTelegramException`
(which `send_message` converts to `false`). -/
def sendCaught : Except Exc Unit → Bool
  | .ok _ => true
  | .error (.apiTelegramException _) => true
  | .error _ => false

/-- A response whose first homework record carries a status outside the
verdict table, while the response itself is well-shaped and carries
`current_date = 1000`. -/
def respBadStatus : PyVal :=
  .dict [("homeworks", .list [.dict [("homework_name", .str "p"),
    ("status", .str "weird")]]), ("current_date", .int 1000)]

/-- A well-shaped response with an empty homework list and
`current_date = 2000`. -/
def respEmpty : PyVal :=
  .dict [("homeworks", .list []), ("current_date", .int 2000)]

/-- One iteration's environment in which the API call raises
`APIRequestError('err')` and every Telegram delivery succeeds. -/
def errEnv : IterEnv := ⟨.error (.apiRequestError "err"), fun _ => .ok ()⟩

/-! ## Helper lemmas -/

theorem finish_getLast (st : PollState) (acts : List Action) (unc : Option Exc) :
    (finish st acts unc).actions.getLast? = some (.sleep RETRY_PERIOD) :=
  List.getLast?_concat acts

theorem exceptPart_getLast (st : PollState) (e : Exc) (acts : List Action)
    (sends : Nat → Except Exc Unit) (k : Nat) :
    (exceptPart st e acts sends k).actions.getLast? = some (.sleep RETRY_PERIOD) := by
  unfold exceptPart
  split
  · apply finish_getLast
  · split <;> apply finish_getLast

theorem exceptPart_timestamp (st : PollState) (e : Exc) (acts : List Action)
    (sends : Nat → Except Exc Unit) (k : Nat) :
    (exceptPart st e acts sends k).state.timestamp = st.timestamp := by
  unfold exceptPart
  split
  · rfl
  · split <;> rfl

theorem exceptPart_stale (st : PollState) (e : Exc) (acts : List Action)
    (sends : Nat → Except Exc Unit) (k : Nat)
    (hstale : st.last_error = some (excStr e)) :
    exceptPart st e acts sends k =
      finish st (acts ++ [.logError ("Сбой в работе программы: " ++ excStr e),
        .logDebug ("Повторная ошибка: " ++ excStr e)]) Option.none := by
  unfold exceptPart
  rw [if_pos hstale]

theorem exceptPart_fresh_delivered (st : PollState) (e : Exc) (acts : List Action)
    (sends : Nat → Except Exc Unit) (k : Nat)
    (hfresh : st.last_error ≠ some (excStr e)) (hok : sends k = .ok ()) :
    exceptPart st e acts sends k =
      finish ⟨st.timestamp, some (excStr e)⟩
        (acts ++ [.logError ("Сбой в работе программы: " ++ excStr e)] ++
         [.sendAttempt ("Сбой в работе программы: " ++ excStr e),
          .logDebug ("Сообщение отправлено: " ++
            ("Сбой в работе программы: " ++ excStr e))])
        Option.none := by
  unfold exceptPart
  rw [if_neg hfresh, hok]
  rfl

theorem sendAttempts_append (l1 l2 : List Action) :
    sendAttempts (l1 ++ l2) = sendAttempts l1 + sendAttempts l2 := by
  simp [sendAttempts, List.filter_append]

theorem afterSend_getLast (st : PollState) (response : PyVal) (message : String)
    (sends : Nat → Except Exc Unit) (r : List Action × Except Exc Bool) :
    (afterSend st response message sends r).actions.getLast? =
      some (.sleep RETRY_PERIOD) := by
  rcases r with ⟨sacts, res⟩
  cases res with
  | error e => apply exceptPart_getLast
  | ok b => cases b <;> apply finish_getLast

theorem afterParse_getLast (st : PollState) (response : PyVal)
    (sends : Nat → Except Exc Unit) (r : Except Exc String) :
    (afterParse st response sends r).actions.getLast? =
      some (.sleep RETRY_PERIOD) := by
  cases r with
  | error e => apply exceptPart_getLast
  | ok message => apply afterSend_getLast

theorem afterValidate_getLast (st : PollState) (response : PyVal)
    (sends : Nat → Except Exc Unit) (r : Except Exc (List PyVal)) :
    (afterValidate st response sends r).actions.getLast? =
      some (.sleep RETRY_PERIOD) := by
  cases r with
  | error e => apply exceptPart_getLast
  | ok hws => cases hws with
    | nil => apply finish_getLast
    | cons hw rest => apply afterParse_getLast

/-! ## Claims -/

/-- C10: every pass through the loop body — successful, handled by the
`except Exception` clause, or ending with a fault that escapes the
handler — has the unconditional `finally` sleep of 600 seconds as its
last effect before the next iteration (or the propagation) begins. -/
theorem c10_iteration_ends_with_sleep (st : PollState) (api : Except Exc PyVal)
    (sends : Nat → Except Exc Unit) :
    (iteration st api sends).actions.getLast? = some (.sleep 600) := by
  have h600 : (Action.sleep 600) = (Action.sleep RETRY_PERIOD) := rfl
  rw [h600]
  cases api with
  | error e => apply exceptPart_getLast
  | ok response => apply afterValidate_getLast

/-- C5: in every iteration in which the API call, the validation, or the
status formatting raises, the handler runs and the cursor is left
unchanged for the next iteration — including when validation succeeded
and the response carries `current_date` but `parse_status` then fails:
the cursor assignment at the end of the `try` block is skipped by the
jump to the handler. -/
theorem c5_cursor_unchanged_on_error (st : PollState) (api : Except Exc PyVal)
    (sends : Nat → Except Exc Unit)
    (h : (∃ e, api = .error e) ∨
      (∃ r e, api = .ok r ∧ check_response r = .error e) ∨
      (∃ r hw rest e, api = .ok r ∧ check_response r = .ok (hw :: rest) ∧
        parse_status hw = .error e)) :
    (iteration st api sends).state.timestamp = st.timestamp := by
  rcases h with ⟨e, rfl⟩ | ⟨r, e, rfl, hc⟩ | ⟨r, hw, rest, e, rfl, hc, hp⟩
  · exact exceptPart_timestamp st e [.apiCall] sends 0
  · show (afterValidate st r sends (check_response r)).state.timestamp = st.timestamp
    rw [hc]
    exact exceptPart_timestamp st e [.apiCall] sends 0
  · show (afterValidate st r sends (check_response r)).state.timestamp = st.timestamp
    rw [hc]
    show (afterParse st r sends (parse_status hw)).state.timestamp = st.timestamp
    rw [hp]
    exact exceptPart_timestamp st e [.apiCall] sends 0

/-- C5 witness: validation succeeds and `current_date = 1000` is
present, but the first record's status is unknown, so `parse_status`
raises and the cursor stays at 5. -/
theorem c5_witness :
    (iteration ⟨.int 5, Option.none⟩ (.ok respBadStatus)
      (fun _ => .ok ())).state.timestamp = .int 5 :=
  c5_cursor_unchanged_on_error ⟨.int 5, Option.none⟩ (.ok respBadStatus) (fun _ => .ok ())
    (Or.inr (Or.inr ⟨respBadStatus, .dict [("homework_name", .str "p"),
      ("status", .str "weird")], [], .valueError "Неизвестный статус: weird",
      rfl, rfl, rfl⟩))

/-- C3 counterexample: an iteration whose API call and validation both
succeed and whose response carries `current_date = 1000`, but whose
first record fails to format: the claim says the cursor is advanced
regardless of the formatting outcome, yet the code leaves it at 5,
because the cursor assignment sits after `parse_status` in the `try`
block and is skipped by the jump to the handler. -/
theorem c3_counterexample :
    check_response respBadStatus =
      .ok [.dict [("homework_name", .str "p"), ("status", .str "weird")]] ∧
    pyGet respBadStatus "current_date" = some (.int 1000) ∧
    (iteration ⟨.int 5, Option.none⟩ (.ok respBadStatus)
      (fun _ => .ok ())).state.timestamp = .int 5 ∧
    (PyVal.int 5) ≠ (PyVal.int 1000) := by
  refine ⟨rfl, rfl, rfl, ?_⟩
  intro h
  cases h

/-- C3 (amended): in every iteration whose API call and validation
succeed and whose formatting-and-notification step finishes without
raising — the homework list is empty, or its first record formats
successfully and the Telegram call does not raise — the cursor is
advanced to `response["current_date"]` when that key is present and left
unchanged when it is absent, regardless of whether the notification was
delivered or reported failure; a formatting error (or a notification
transport raise) instead skips the advance. -/
theorem c3_cursor_advance (st : PollState) (api : Except Exc PyVal)
    (sends : Nat → Except Exc Unit) (response : PyVal) (hws : List PyVal)
    (hapi : api = .ok response) (hchk : check_response response = .ok hws)
    (hfmt : hws = [] ∨ ∃ hw rest msg, hws = hw :: rest ∧
      parse_status hw = .ok msg ∧ sendCaught (sends 0) = true) :
    (iteration st api sends).state.timestamp =
      (pyGet response "current_date").getD st.timestamp := by
  subst hapi
  rcases hfmt with rfl | ⟨hw, rest, msg, rfl, hp, hs⟩
  · show (afterValidate st response sends (check_response response)).state.timestamp = _
    rw [hchk]
    rfl
  · show (afterValidate st response sends (check_response response)).state.timestamp = _
    rw [hchk]
    show (afterParse st response sends (parse_status hw)).state.timestamp = _
    rw [hp]
    show (afterSend st response msg sends (send_message (sends 0) msg)).state.timestamp = _
    cases hsend : sends 0 with
    | ok u => cases u; rfl
    | error e =>
      rw [hsend] at hs
      cases e <;> first | rfl | (simp [sendCaught] at hs)

/-- C3 witness: the empty-homeworks scenario — validation succeeds,
nothing to notify, and the cursor advances to `current_date = 2000`. -/
theorem c3_witness :
    (iteration ⟨.int 1, Option.none⟩ (.ok respEmpty)
      (fun _ => .ok ())).state.timestamp =
      (pyGet respEmpty "current_date").getD (.int 1) :=
  c3_cursor_advance ⟨.int 1, Option.none⟩ (.ok respEmpty) (fun _ => .ok ())
    respEmpty [] rfl rfl (Or.inl rfl)

/-- C1 counterexample: three consecutive iterations all raising the
same error text `err` from the freshly started state (every delivery
succeeding).  The first iteration notifies and records the text, so the
pair formed by the second and third iterations — consecutive iterations
raising identical error text — sends zero notifications across the two,
not exactly one.  The per-iteration send counts are `[1, 0, 0]`, and
every iteration did raise (each trace carries the handler's error
line). -/
theorem c1_counterexample :
    ((runLoop ⟨.int 0, Option.none⟩ [errEnv, errEnv, errEnv]).map
      (fun o => sendAttempts o.actions)) = [1, 0, 0] ∧
    ∀ o ∈ runLoop ⟨.int 0, Option.none⟩ [errEnv, errEnv, errEnv],
      Action.logError "Сбой в работе программы: err" ∈ o.actions := by
  constructor
  · rfl
  · decide

/-- C1 (amended): for two consecutive iterations raising errors with
identical text, *provided* that text differs from `lastReportedError` at
the start of the pair and the first iteration's notification is
delivered, exactly one error notification is sent across the two
iterations: the first iteration sends it, and the second emits the
repeat-error debug line and makes no send attempt.  (Without those
provisos the code can send zero — the text was already recorded before
the pair — or attempt twice, when the first delivery fails.) -/
theorem c1_dedup (st : PollState) (e : Exc)
    (sends1 sends2 : Nat → Except Exc Unit)
    (hfresh : st.last_error ≠ some (excStr e))
    (hok : sends1 0 = .ok ()) :
    sendAttempts (iteration st (.error e) sends1).actions = 1 ∧
    sendAttempts (iteration (iteration st (.error e) sends1).state
      (.error e) sends2).actions = 0 ∧
    Action.logDebug ("Повторная ошибка: " ++ excStr e) ∈
      (iteration (iteration st (.error e) sends1).state
        (.error e) sends2).actions := by
  have h1 : iteration st (.error e) sends1 =
      finish ⟨st.timestamp, some (excStr e)⟩
        ([.apiCall] ++ [.logError ("Сбой в работе программы: " ++ excStr e)] ++
         [.sendAttempt ("Сбой в работе программы: " ++ excStr e),
          .logDebug ("Сообщение отправлено: " ++
            ("Сбой в работе программы: " ++ excStr e))]) Option.none :=
    exceptPart_fresh_delivered st e [.apiCall] sends1 0 hfresh hok
  have hstate : (iteration st (.error e) sends1).state =
      ⟨st.timestamp, some (excStr e)⟩ := by rw [h1]; rfl
  have h2 : iteration (iteration st (.error e) sends1).state (.error e) sends2 =
      finish ⟨st.timestamp, some (excStr e)⟩
        ([.apiCall] ++ [.logError ("Сбой в работе программы: " ++ excStr e),
          .logDebug ("Повторная ошибка: " ++ excStr e)]) Option.none := by
    rw [hstate]
    exact exceptPart_stale ⟨st.timestamp, some (excStr e)⟩ e [.apiCall] sends2 0 rfl
  refine ⟨?_, ?_, ?_⟩
  · rw [h1]
    rfl
  · rw [h2]
    rfl
  · rw [h2]
    simp [finish]

/-- C1 witness: concrete pair of consecutive identical API failures
starting from a fresh state with successful delivery. -/
theorem c1_dedup_witness :
    sendAttempts (iteration ⟨.int 0, Option.none⟩
      (.error (.apiRequestError "err")) (fun _ => .ok ())).actions = 1 ∧
    sendAttempts (iteration (iteration ⟨.int 0, Option.none⟩
        (.error (.apiRequestError "err")) (fun _ => .ok ())).state
      (.error (.apiRequestError "err")) (fun _ => .ok ())).actions = 0 ∧
    Action.logDebug ("Повторная ошибка: " ++ excStr (.apiRequestError "err")) ∈
      (iteration (iteration ⟨.int 0, Option.none⟩
          (.error (.apiRequestError "err")) (fun _ => .ok ())).state
        (.error (.apiRequestError "err")) (fun _ => .ok ())).actions :=
  c1_dedup ⟨.int 0, Option.none⟩ (.apiRequestError "err")
    (fun _ => .ok ()) (fun _ => .ok ())
    (fun h => Option.noConfusion h) rfl

/-- C6: in the loop's error handler (`exceptPart`, the embedding of the
`except Exception` block), when the error text differs from
`lastReportedError` a notification is attempted, and `lastReportedError`
is updated to the new text exactly when `send_message` returns true;
when delivery fails — whether reported as `False` (an
`ApiTelegramException` was caught) or raised — `lastReportedError`
keeps its previous value, so the same text is still "new" on a later
iteration and is re-notified then. -/
theorem c6_last_error_update (st : PollState) (e : Exc) (acts : List Action)
    (sends : Nat → Except Exc Unit) (k : Nat)
    (hfresh : st.last_error ≠ some (excStr e)) :
    Action.sendAttempt ("Сбой в работе программы: " ++ excStr e) ∈
      (exceptPart st e acts sends k).actions ∧
    (exceptPart st e acts sends k).state.last_error =
      (match sends k with
       | .ok _ => some (excStr e)
       | .error _ => st.last_error) := by
  unfold exceptPart
  rw [if_neg hfresh]
  cases hs : sends k with
  | ok u => cases u; simp [send_message, finish]
  | error e2 => cases e2 <;> simp [send_message, finish]

/-- C6 witness: fresh error text with successful delivery; the attempt
is in the trace and the text is recorded. -/
theorem c6_witness :
    Action.sendAttempt ("Сбой в работе программы: " ++
      excStr (.apiRequestError "x")) ∈
      (exceptPart ⟨.int 0, Option.none⟩ (.apiRequestError "x") []
        (fun _ => .ok ()) 0).actions ∧
    (exceptPart ⟨.int 0, Option.none⟩ (.apiRequestError "x") []
      (fun _ => .ok ()) 0).state.last_error =
      (match (fun _ : Nat => (Except.ok () : Except Exc Unit)) 0 with
       | .ok _ => some (excStr (.apiRequestError "x"))
       | .error _ => Option.none) :=
  c6_last_error_update ⟨.int 0, Option.none⟩ (.apiRequestError "x") []
    (fun _ => .ok ()) 0 (fun h => Option.noConfusion h)

/-- C2 counterexample: a transport-level failure — any exception that is
not an `ApiTelegramException`, here a `requests`-style connection error
raised by the collaborator — is not caught by `send_message`'s
`except ApiTelegramException` clause: the call propagates the exception
to its caller instead of returning false. -/
theorem c2_counterexample :
    (send_message (.error (.requestException "Connection aborted")) "msg").2 =
      .error (.requestException "Connection aborted") ∧
    (send_message (.error (.requestException "Connection aborted")) "msg").2 ≠
      .ok false := by
  refine ⟨rfl, ?_⟩
  intro h
  cases h

/-- C2 (amended): `send_message` returns true exactly on successful
delivery (logging the message at debug level); an API-level rejection
raised as `ApiTelegramException` is caught, logged at error level, and
turned into false without propagating; but any other exception raised
by the messaging collaborator — e.g. a transport-level failure — is not
caught and propagates to the caller. -/
theorem c2_send_message (collab : Except Exc Unit) (message : String) :
    ((send_message collab message).2 = .ok true ↔ collab = .ok ()) ∧
    ((send_message collab message).2 = .ok false ↔
      ∃ m, collab = .error (.apiTelegramException m)) ∧
    (∀ m, collab = .error (.apiTelegramException m) →
      Action.logError ("Ошибка отправки сообщения: " ++ m) ∈
        (send_message collab message).1) ∧
    (∀ e, collab = .error e → (∀ m, e ≠ .apiTelegramException m) →
      (send_message collab message).2 = .error e) := by
  refine ⟨?_, ?_, ?_, ?_⟩
  · cases collab with
    | ok u => cases u; simp [send_message]
    | error e => cases e <;> simp [send_message]
  · cases collab with
    | ok u => cases u; simp [send_message]
    | error e => cases e <;> simp [send_message]
  · intro m hm
    subst hm
    simp [send_message]
  · intro e he hne
    subst he
    cases e with
    | apiTelegramException m => exact absurd rfl (hne m)
    | apiRequestError m => rfl
    | invalidResponseError m => rfl
    | keyError m => rfl
    | valueError m => rfl
    | requestException m => rfl
    | attributeError m => rfl

/-- C2 witness: an `ApiTelegramException` rejection is converted to a
returned false. -/
theorem c2_witness :
    (send_message (.error (.apiTelegramException "Bad Request")) "hello").2 =
      .ok false :=
  ((c2_send_message (.error (.apiTelegramException "Bad Request"))
    "hello").2.1).mpr ⟨"Bad Request", rfl⟩

/-- C4 counterexample: at homework_name "proj1" and status "approved"
the formatter's sentence begins with the script's Russian prefix
`Изменился статус проверки работы`, not with the claim's
`Changed review status of`. -/
theorem c4_counterexample :
    parse_status (.dict [("homework_name", .str "proj1"),
      ("status", .str "approved")]) ≠
      .ok ("Changed review status of \"proj1\". " ++
        "Работа проверена: ревьюеру всё понравилось. Ура!") := by
  intro h
  have h2 : ("Изменился статус проверки работы \"proj1\". " ++
      "Работа проверена: ревьюеру всё понравилось. Ура!" : String) =
      ("Changed review status of \"proj1\". " ++
      "Работа проверена: ревьюеру всё понравилось. Ура!" : String) :=
    Except.ok.inj h
  exact absurd h2 (by decide)

/-- C4 (amended): for every record carrying a name and one of the three
table statuses, `parse_status` returns exactly
`Изменился статус проверки работы "NAME". VERDICT-SENTENCE` with the
verdict from the fixed table — in particular, for "proj1"/"approved" it
returns exactly `Изменился статус проверки работы "proj1". Работа
проверена: ревьюеру всё понравилось. Ура!` — and for any status string
outside the table it fails with the script's `ValueError` (the spec's
`UnknownStatus`) carrying the offending value. -/
theorem c4_parse_status (name status verdict : String)
    (hv : (status, verdict) ∈ HOMEWORK_VERDICTS) :
    parse_status (.dict [("homework_name", .str name),
      ("status", .str status)]) =
      .ok ("Изменился статус проверки работы \"" ++ name ++ "\". " ++ verdict) ∧
    parse_status (.dict [("homework_name", .str "proj1"),
      ("status", .str "approved")]) =
      .ok ("Изменился статус проверки работы \"proj1\". " ++
        "Работа проверена: ревьюеру всё понравилось. Ура!") ∧
    (∀ s : String, tableLookup HOMEWORK_VERDICTS s = Option.none →
      parse_status (.dict [("homework_name", .str name),
        ("status", .str s)]) =
        .error (.valueError ("Неизвестный статус: " ++ s))) := by
  refine ⟨?_, rfl, ?_⟩
  · simp only [HOMEWORK_VERDICTS, List.mem_cons, List.mem_singleton,
      Prod.mk.injEq, List.not_mem_nil, or_false] at hv
    rcases hv with ⟨rfl, rfl⟩ | ⟨rfl, rfl⟩ | ⟨rfl, rfl⟩ <;> rfl
  · intro s hs
    have hred : parse_status (.dict [("homework_name", .str name),
        ("status", .str s)]) =
        (match tableLookup HOMEWORK_VERDICTS s with
         | some v => Except.ok ("Изменился статус проверки работы \"" ++
             name ++ "\". " ++ v)
         | Option.none =>
             Except.error (Exc.valueError ("Неизвестный статус: " ++ s))) := rfl
    rw [hred, hs]

/-- C4 witness: the concrete "proj1"/"approved" sentence. -/
theorem c4_witness :
    parse_status (.dict [("homework_name", .str "proj1"),
      ("status", .str "approved")]) =
      .ok ("Изменился статус проверки работы \"proj1\". " ++
        "Работа проверена: ревьюеру всё понравилось. Ура!") :=
  (c4_parse_status "proj1" "approved"
    "Работа проверена: ревьюеру всё понравилось. Ура!" (by decide)).2.1

theorem check_response_dict (es : List (String × PyVal)) :
    check_response (.dict es) =
      (match missingRespKeys es with
       | k :: ks => Except.error (Exc.invalidResponseError
           ("Отсутствуют ключи в ответе API: " ++
             String.intercalate ", " (k :: ks)))
       | [] =>
         match dictGet es "homeworks" with
         | Option.none => Except.error (Exc.keyError "homeworks")
         | some homeworks =>
           match homeworks with
           | PyVal.list hws => Except.ok hws
           | v => Except.error (Exc.invalidResponseError
               ("homeworks должен быть списком, получен " ++ typeName v))) := rfl

theorem missingRespKeys_nil (es : List (String × PyVal))
    (h1 : dictGet es "homeworks" ≠ Option.none)
    (h2 : dictGet es "current_date" ≠ Option.none) :
    missingRespKeys es = [] := by
  cases hh : dictGet es "homeworks" with
  | none => exact absurd hh h1
  | some v =>
    cases hc : dictGet es "current_date" with
    | none => exact absurd hc h2
    | some w => simp [missingRespKeys, requiredResponseKeys, hh, hc]

/-- C7: `check_response` rejects a non-mapping input naming its observed
type; rejects a mapping missing a required key with a message naming
exactly the missing keys (`missingRespKeys es` contains a key iff it is
required and absent); rejects a non-list `homeworks` value naming its
observed type; and on every well-shaped input returns the `homeworks`
list unchanged.  The embedding is a pure function whose only output is
the returned value, matching the component's lack of side effects. -/
theorem c7_check_response :
    (∀ v : PyVal, (∀ es, v ≠ PyVal.dict es) →
      check_response v = .error (.invalidResponseError
        ("Ответ API должен быть словарем, получен " ++ typeName v))) ∧
    (∀ es, missingRespKeys es ≠ [] →
      check_response (.dict es) = .error (.invalidResponseError
        ("Отсутствуют ключи в ответе API: " ++
          String.intercalate ", " (missingRespKeys es)))) ∧
    (∀ (k : String) (es : List (String × PyVal)),
      k ∈ missingRespKeys es ↔
        (k ∈ requiredResponseKeys ∧ dictGet es k = Option.none)) ∧
    (∀ es hw, dictGet es "homeworks" = some hw →
      dictGet es "current_date" ≠ Option.none → (∀ xs, hw ≠ PyVal.list xs) →
      check_response (.dict es) = .error (.invalidResponseError
        ("homeworks должен быть списком, получен " ++ typeName hw))) ∧
    (∀ es hws, dictGet es "homeworks" = some (.list hws) →
      dictGet es "current_date" ≠ Option.none →
      check_response (.dict es) = .ok hws) := by
  refine ⟨?_, ?_, ?_, ?_, ?_⟩
  · intro v hv
    cases v with
    | dict es => exact absurd rfl (hv es)
    | int n => rfl
    | str s => rfl
    | bool b => rfl
    | none => rfl
    | list xs => rfl
  · intro es hm
    cases hmk : missingRespKeys es with
    | nil => exact absurd hmk hm
    | cons k ks => rw [check_response_dict, hmk]
  · intro k es
    simp [missingRespKeys, List.mem_filter, Option.isNone_iff_eq_none]
  · intro es hw h1 h2 h3
    rw [check_response_dict,
      missingRespKeys_nil es (by rw [h1]; exact fun hh => Option.noConfusion hh) h2,
      h1]
    cases hw with
    | list xs => exact absurd rfl (h3 xs)
    | int n => rfl
    | str s => rfl
    | bool b => rfl
    | none => rfl
    | dict es2 => rfl
  · intro es hws h1 h2
    rw [check_response_dict,
      missingRespKeys_nil es (by rw [h1]; exact fun hh => Option.noConfusion hh) h2,
      h1]

/-- C7 witness: a well-shaped response with an empty homework list is
returned unchanged. -/
theorem c7_witness :
    check_response (.dict [("homeworks", .list []), ("current_date", .int 1)]) =
      .ok [] :=
  c7_check_response.2.2.2.2 [("homeworks", .list []), ("current_date", .int 1)]
    [] rfl (fun hh => Option.noConfusion hh)

theorem parse_status_with_dict (verdicts : List (String × String))
    (es : List (String × PyVal)) :
    parse_status_with verdicts (.dict es) =
      (match missingHwKeys es with
       | k :: ks => Except.error (Exc.keyError
           ("Отсутствуют ключи в домашней работе: " ++
             String.intercalate ", " (k :: ks)))
       | [] =>
         match dictGet es "status" with
         | Option.none => Except.error (Exc.keyError "status")
         | some status =>
           match status with
           | PyVal.str s =>
             match tableLookup verdicts s with
             | some verdict =>
               match dictGet es "homework_name" with
               | Option.none => Except.error (Exc.keyError "homework_name")
               | some name =>
                   Except.ok ("Изменился статус проверки работы \"" ++
                     pystr name ++ "\". " ++ verdict)
             | Option.none =>
                 Except.error (Exc.valueError ("Неизвестный статус: " ++ s))
           | v => Except.error (Exc.valueError
               ("Неизвестный статус: " ++ pystr v))) := rfl

/-- C9: for every homework record missing `homework_name` or `status`,
`parse_status` fails with the script's `KeyError` (the spec's
`MissingField`) naming exactly the missing keys (`missingHwKeys es`
contains a key iff it is required and absent) — and it does so for
every verdict table, i.e. without consulting the table: in particular a
present-but-unknown status value still yields the missing-key failure,
never the unknown-status one. -/
theorem c9_parse_missing (verdicts : List (String × String))
    (es : List (String × PyVal)) (h : missingHwKeys es ≠ []) :
    parse_status_with verdicts (.dict es) =
      .error (.keyError ("Отсутствуют ключи в домашней работе: " ++
        String.intercalate ", " (missingHwKeys es))) ∧
    parse_status (.dict es) =
      .error (.keyError ("Отсутствуют ключи в домашней работе: " ++
        String.intercalate ", " (missingHwKeys es))) ∧
    (∀ k : String, k ∈ missingHwKeys es ↔
      (k ∈ requiredHomeworkKeys ∧ dictGet es k = Option.none)) := by
  have hmem : ∀ k2 : String, k2 ∈ missingHwKeys es ↔
      (k2 ∈ requiredHomeworkKeys ∧ dictGet es k2 = Option.none) := by
    intro k2
    simp [missingHwKeys, List.mem_filter, Option.isNone_iff_eq_none]
  cases hmk : missingHwKeys es with
  | nil => exact absurd hmk h
  | cons k ks =>
    refine ⟨?_, ?_, ?_⟩
    · rw [parse_status_with_dict, hmk]
    · show parse_status_with HOMEWORK_VERDICTS _ = _
      rw [parse_status_with_dict, hmk]
    · intro k2
      exact hmk ▸ hmem k2

/-- C9 witness: a record missing `homework_name` whose present `status`
value is outside the verdict table still fails with the missing-key
`KeyError`, not the unknown-status `ValueError`. -/
theorem c9_witness :
    parse_status (.dict [("status", .str "weird")]) =
      .error (.keyError ("Отсутствуют ключи в домашней работе: " ++
        String.intercalate ", " (missingHwKeys [("status", .str "weird")]))) :=
  (c9_parse_missing HOMEWORK_VERDICTS [("status", .str "weird")]
    (by decide)).2.1

/-- C8: when any of the three credentials is unset or empty, `main`
emits exactly one critical log line enumerating exactly the missing
credential names (comma-joined) and exits with status 1 before entering
the loop, and the startup trace contains no network call. -/
theorem c8_startup (p t c : Option String) (now : Int)
    (h : truthy p = false ∨ truthy t = false ∨ truthy c = false) :
    mainStartup p t c now = .exited 1
      [.logCritical ("Отсутствуют переменные окружения: " ++
        String.intercalate "," (missingTokenNames p t c))] ∧
    ("PRACTICUM_TOKEN" ∈ missingTokenNames p t c ↔ truthy p = false) ∧
    ("TELEGRAM_TOKEN" ∈ missingTokenNames p t c ↔ truthy t = false) ∧
    ("TELEGRAM_CHAT_ID" ∈ missingTokenNames p t c ↔ truthy c = false) ∧
    (∀ a ∈ [Action.logCritical ("Отсутствуют переменные окружения: " ++
        String.intercalate "," (missingTokenNames p t c))],
      isNetworkCall a = false) := by
  cases hp : truthy p <;> cases ht : truthy t <;> cases hc2 : truthy c <;>
    first
      | (exfalso
         simp [hp, ht, hc2] at h
         done)
      | (refine ⟨?_, ?_, ?_, ?_, ?_⟩ <;>
          simp [mainStartup, check_tokens, missingTokenNames, hp, ht, hc2,
            isNetworkCall])

/-- C8 witness: the spec's scenario — `TELEGRAM_CHAT_ID` missing at
startup. -/
theorem c8_witness :
    mainStartup (some "x") (some "y") Option.none 42 = .exited 1
      [.logCritical ("Отсутствуют переменные окружения: " ++
        String.intercalate ","
          (missingTokenNames (some "x") (some "y") Option.none))] ∧
    ("PRACTICUM_TOKEN" ∈ missingTokenNames (some "x") (some "y") Option.none ↔
      truthy (some "x") = false) ∧
    ("TELEGRAM_TOKEN" ∈ missingTokenNames (some "x") (some "y") Option.none ↔
      truthy (some "y") = false) ∧
    ("TELEGRAM_CHAT_ID" ∈ missingTokenNames (some "x") (some "y") Option.none ↔
      truthy Option.none = false) ∧
    (∀ a ∈ [Action.logCritical ("Отсутствуют переменные окружения: " ++
        String.intercalate ","
          (missingTokenNames (some "x") (some "y") Option.none))],
      isNetworkCall a = false) :=
  c8_startup (some "x") (some "y") Option.none 42 (Or.inr (Or.inr rfl))

end HomeworkBot
